import Mathlib

/-
Shallow embedding of the two client scripts of BDF-Tech/BDF-Mobile:
  * src/mobile/mobile/doctype/tanker_weight_log/tanker_weight_log.js
    (the tank gauge poller, function updateTankGraphic)
  * src/mobile/mobile/page/stock_dashboard/stock_dashboard.js
    (the stock dashboard, functions refresh_data and render_data)
JavaScript numbers are modelled as rationals; the DOM regions each script
writes are modelled as explicit state records, and each script body becomes
a state transformer on them.  Fetch results are passed in as values, since
the scripts only ever consume them in their continuation callbacks.
-/

namespace BDFMobile

/-- Rounding to one decimal place as performed by JavaScript
`Number.prototype.toFixed(1)`: the integer numerator is chosen as close as
possible to `q * 10`, ties going to the larger integer. -/
def toFixed1 (q : ℚ) : ℚ := ((Rat.floor (q * 10 + 1/2) : ℤ) : ℚ) / 10

/-- Rounding to the nearest integer as performed by JavaScript `Math.round`,
which also sends ties to the larger integer. -/
def jsRound (q : ℚ) : ℤ := Rat.floor (q + 1/2)

/- ==========================================================================
   Tank gauge poller (tanker_weight_log.js)
   ========================================================================== -/

/-- One row returned by the `Tanker Weight Log` list query; the script only
requests the `weight` field. -/
structure WeightRecord where
  weight : ℚ
deriving DecidableEq

/-- The four DOM-bound display properties the gauge script writes:
the fill height (a percentage), the numeric weight text, the device label
and the fill color. -/
structure GaugeDOM where
  heightPercent : ℚ
  weightText : String
  deviceLabel : String
  fillColor : String
deriving DecidableEq

/-- Fill percent computation of `updateTankGraphic`:
`fillPercent = (weight / maxCapacity) * 100`, then
`if (fillPercent > 100) fillPercent = 100`. -/
def computeFillPercent (weight maxCapacity : ℚ) : ℚ :=
  let fillPercent := weight / maxCapacity * 100
  if fillPercent > 100 then 100 else fillPercent

/-- Fill color choice of `updateTankGraphic`:
warning `#f44336` when `fillPercent < 10`, otherwise normal `#2196F3`. -/
def gaugeColor (fillPercent : ℚ) : String :=
  if fillPercent < 10 then "#f44336" else "#2196F3"

/-- Body of `updateTankGraphic(deviceId, maxCapacity = 5000)` after the fetch
resolves with `records`: when `records.length > 0` the four DOM properties are
overwritten from `records[0].weight`; otherwise nothing happens. -/
def updateTankGraphic (deviceId : String) (records : List WeightRecord)
    (dom : GaugeDOM) (maxCapacity : ℚ := 5000) : GaugeDOM :=
  match records with
  | [] => dom
  | r :: _ =>
    let weight := r.weight
    let fillPercent := computeFillPercent weight maxCapacity
    { heightPercent := fillPercent
      weightText := toString weight ++ " kg"
      deviceLabel := "Device: " ++ deviceId
      fillColor := gaugeColor fillPercent }

/- ==========================================================================
   Stock dashboard (stock_dashboard.js)
   ========================================================================== -/

/-- One row returned by the `get_stock_data` remote call.  `warehouse` and
`custom_no_of_days` are nullable in the response; an absent warehouse is
`none` (an empty string is also falsy in the script, so it is kept as
`some ""` here and handled at render time). -/
structure StockRow where
  item_code : String
  item_name : String
  warehouse : Option String
  actual_qty : ℚ
  reorder_level : ℚ
  custom_no_of_days : Option ℚ
deriving DecidableEq

/-- Classification test used in both passes of `render_data`:
`i.actual_qty <= i.reorder_level`. -/
def isCritical (i : StockRow) : Bool :=
  i.actual_qty ≤ i.reorder_level

/-- Truthiness-and-positivity guard of `render_data`:
`i.custom_no_of_days && i.custom_no_of_days > 0`.  `null`, `undefined` and
`0` are falsy; a negative value is truthy but fails `> 0`. -/
def hasValidDays (i : StockRow) : Bool :=
  match i.custom_no_of_days with
  | none => false
  | some d => 0 < d

/-- The quotient `i.actual_qty / i.custom_no_of_days` accumulated for rows
passing the `hasValidDays` guard. -/
def daysQuot (i : StockRow) : ℚ :=
  match i.custom_no_of_days with
  | none => 0
  | some d => i.actual_qty / d

/-- Accumulator of the single `data.forEach` pass of `render_data`:
`critical`, `healthy`, `total_days`, `valid_day_items`. -/
structure Agg where
  critical : ℕ
  healthy : ℕ
  total_days : ℚ
  valid_day_items : ℕ
deriving DecidableEq

/-- The body of the `forEach` callback in `render_data`, applied to one row. -/
def aggStep (a : Agg) (i : StockRow) : Agg :=
  { critical := if isCritical i then a.critical + 1 else a.critical
    healthy := if isCritical i then a.healthy else a.healthy + 1
    total_days := if hasValidDays i then a.total_days + daysQuot i else a.total_days
    valid_day_items := if hasValidDays i then a.valid_day_items + 1 else a.valid_day_items }

/-- The full `data.forEach(...)` pass of `render_data`, starting from the
zero-initialised locals. -/
def aggregate (data : List StockRow) : Agg :=
  data.foldl aggStep ⟨0, 0, 0, 0⟩

/-- `avg_days` of `render_data`:
`valid_day_items ? (total_days / valid_day_items).toFixed(1) : 0`. -/
def avg_days (data : List StockRow) : ℚ :=
  let a := aggregate data
  if a.valid_day_items ≠ 0 then toFixed1 (a.total_days / (a.valid_day_items : ℚ)) else 0

/-- One rendered stock card, with every data-dependent slot of the card
template of `render_data`. -/
structure Card where
  borderClass : String
  item_name : String
  badgeClass : String
  badgeText : String
  qty : ℤ
  reorder : ℚ
  days : ℚ
  warehouseLabel : String
  route_item_code : String
deriving DecidableEq

/-- The `data.map` card template of `render_data` for one row.
`days_remaining` starts at `0` and is overwritten only under the
`hasValidDays` guard; the warehouse slot falls back to the literal
`Multiple` when `i.warehouse` is falsy (absent or the empty string). -/
def renderCard (i : StockRow) : Card :=
  let days_remaining : ℚ :=
    if hasValidDays i then toFixed1 (daysQuot i) else 0
  let crit := isCritical i
  { borderClass := if crit then "critical" else "safe"
    item_name := i.item_name
    badgeClass := if crit then "badge-critical" else "badge-healthy"
    badgeText := if crit then "Critical" else "Healthy"
    qty := jsRound i.actual_qty
    reorder := i.reorder_level
    days := days_remaining
    warehouseLabel :=
      match i.warehouse with
      | none => "Multiple"
      | some w => if w = "" then "Multiple" else w
    route_item_code := i.item_code }

/-- Contents of the `#stock-cards-container` element. -/
inductive CardContainer where
  | loading
  | emptyState (msg : String)
  | cards (cs : List Card)
deriving DecidableEq

/-- The DOM regions `render_data` writes: the four summary tiles and the
card container. -/
structure DashboardDOM where
  totalItems : ℕ
  criticalItems : ℕ
  healthyItems : ℕ
  avgDays : ℚ
  container : CardContainer
deriving DecidableEq

/-- `render_data(data)` as a state transformer on the dashboard DOM.
When `!data.length` it only replaces the card container with the
`No stock found.` empty state and returns; otherwise it writes the four
aggregates to the tiles and the mapped cards to the container. -/
def render_data (data : List StockRow) (dom : DashboardDOM) : DashboardDOM :=
  if data.length = 0 then
    { dom with container := CardContainer.emptyState "No stock found." }
  else
    let a := aggregate data
    { totalItems := data.length
      criticalItems := a.critical
      healthyItems := a.healthy
      avgDays := avg_days data
      container := CardContainer.cards (data.map renderCard) }

/-- The five filter controls of the page, each read through `get_value()`;
`none` models an unset control. -/
structure FilterControls where
  warehouse : Option String
  item_code : Option String
  item_group : Option String
  stock_status : Option String
  sort_order : Option String
deriving DecidableEq

/-- The named-argument set of the single `frappe.call` issued by
`refresh_data`, as the ordered association list written literally in its
`args:` object. -/
def refresh_call_args (page : FilterControls) : List (String × Option String) :=
  [("warehouse", page.warehouse),
   ("item_code", page.item_code),
   ("item_group", page.item_group),
   ("stock_status", page.stock_status),
   ("sort_order", page.sort_order)]

/- ==========================================================================
   Helper lemmas about the forEach aggregation pass
   ========================================================================== -/

lemma foldl_aggStep_critical (data : List StockRow) :
    ∀ a : Agg, (data.foldl aggStep a).critical = a.critical + data.countP isCritical := by
  induction data with
  | nil => intro a; simp
  | cons i tl ih =>
    intro a
    rw [List.foldl_cons, ih, List.countP_cons]
    by_cases h : isCritical i <;> simp [aggStep, h] <;> omega

lemma foldl_aggStep_healthy (data : List StockRow) :
    ∀ a : Agg,
      (data.foldl aggStep a).healthy = a.healthy + data.countP (fun i => !isCritical i) := by
  induction data with
  | nil => intro a; simp
  | cons i tl ih =>
    intro a
    rw [List.foldl_cons, ih, List.countP_cons]
    by_cases h : isCritical i <;> simp [aggStep, h] <;> omega

lemma foldl_aggStep_valid_day_items (data : List StockRow) :
    ∀ a : Agg,
      (data.foldl aggStep a).valid_day_items
        = a.valid_day_items + (data.filter hasValidDays).length := by
  induction data with
  | nil => intro a; simp
  | cons i tl ih =>
    intro a
    rw [List.foldl_cons, ih]
    by_cases h : hasValidDays i <;>
      simp [aggStep, h, List.filter_cons] <;> omega

lemma foldl_aggStep_total_days (data : List StockRow) :
    ∀ a : Agg,
      (data.foldl aggStep a).total_days
        = a.total_days + ((data.filter hasValidDays).map daysQuot).sum := by
  induction data with
  | nil => intro a; simp
  | cons i tl ih =>
    intro a
    rw [List.foldl_cons, ih]
    by_cases h : hasValidDays i <;>
      simp [aggStep, h, List.filter_cons] <;> ring

lemma aggregate_critical (data : List StockRow) :
    (aggregate data).critical = data.countP isCritical := by
  simpa using foldl_aggStep_critical data ⟨0, 0, 0, 0⟩

lemma aggregate_healthy (data : List StockRow) :
    (aggregate data).healthy = data.countP (fun i => !isCritical i) := by
  simpa using foldl_aggStep_healthy data ⟨0, 0, 0, 0⟩

lemma aggregate_valid_day_items (data : List StockRow) :
    (aggregate data).valid_day_items = (data.filter hasValidDays).length := by
  simpa using foldl_aggStep_valid_day_items data ⟨0, 0, 0, 0⟩

lemma aggregate_total_days (data : List StockRow) :
    (aggregate data).total_days = ((data.filter hasValidDays).map daysQuot).sum := by
  simpa using foldl_aggStep_total_days data ⟨0, 0, 0, 0⟩

lemma ratFloor_eq_intFloor (q : ℚ) : Rat.floor q = ⌊q⌋ := by
  rw [Rat.floor_def', ← Rat.floor_def]

lemma toFixed1_of_floor (q : ℚ) (z : ℤ) (h1 : (z : ℚ) ≤ q * 10 + 1/2)
    (h2 : q * 10 + 1/2 < z + 1) : toFixed1 q = (z : ℚ) / 10 := by
  rw [toFixed1, ratFloor_eq_intFloor, Int.floor_eq_iff.mpr ⟨h1, h2⟩]

lemma countP_add_countP_not (p : StockRow → Bool) (l : List StockRow) :
    l.countP p + l.countP (fun i => !p i) = l.length := by
  induction l with
  | nil => simp
  | cons i tl ih =>
    rw [List.countP_cons, List.countP_cons]
    by_cases h : p i <;> simp [h] <;> omega

/- ==========================================================================
   Claim theorems
   ========================================================================== -/

/-- C1: for every stock row, the classification is Critical exactly when
`actual_qty ≤ reorder_level` and Healthy otherwise; in particular a row with
`actual_qty = reorder_level` is classified Critical (inclusive threshold). -/
theorem critical_classification_inclusive (i : StockRow) :
    (isCritical i = true ↔ i.actual_qty ≤ i.reorder_level) ∧
    (isCritical i = false ↔ i.reorder_level < i.actual_qty) ∧
    (i.actual_qty = i.reorder_level → isCritical i = true) := by
  refine ⟨by simp [isCritical], by simp [isCritical], fun h => ?_⟩
  simp [isCritical, h]

/-- C1 witness: the boundary row with `actual_qty = reorder_level = 50` is
classified Critical. -/
theorem critical_classification_inclusive_witness :
    isCritical ⟨"ITEM-001", "Milk", none, 50, 50, none⟩ = true :=
  (critical_classification_inclusive ⟨"ITEM-001", "Milk", none, 50, 50, none⟩).2.2 rfl

/-- C2: for every nonempty list of rows, the tiles written by `render_data`
satisfy `criticalItems + healthyItems = totalItems`, and `totalItems` is the
length of the list. -/
theorem aggregate_consistency (data : List StockRow) (dom : DashboardDOM)
    (h : data ≠ []) :
    (render_data data dom).criticalItems + (render_data data dom).healthyItems
        = (render_data data dom).totalItems ∧
    (render_data data dom).totalItems = data.length := by
  have hlen : ¬ data.length = 0 := by simpa using h
  constructor
  · simp only [render_data, hlen, if_false]
    rw [aggregate_critical, aggregate_healthy, countP_add_countP_not]
  · simp [render_data, hlen]

/-- C2 witness: the invariant instantiated on a concrete two-row list. -/
theorem aggregate_consistency_witness :
    ((render_data
        [⟨"A", "A", none, 10, 20, none⟩, ⟨"B", "B", none, 30, 20, none⟩]
        ⟨0, 0, 0, 0, CardContainer.loading⟩).criticalItems
      + (render_data
        [⟨"A", "A", none, 10, 20, none⟩, ⟨"B", "B", none, 30, 20, none⟩]
        ⟨0, 0, 0, 0, CardContainer.loading⟩).healthyItems
      = (render_data
        [⟨"A", "A", none, 10, 20, none⟩, ⟨"B", "B", none, 30, 20, none⟩]
        ⟨0, 0, 0, 0, CardContainer.loading⟩).totalItems) ∧
    (render_data
        [⟨"A", "A", none, 10, 20, none⟩, ⟨"B", "B", none, 30, 20, none⟩]
        ⟨0, 0, 0, 0, CardContainer.loading⟩).totalItems = 2 :=
  aggregate_consistency
    [⟨"A", "A", none, 10, 20, none⟩, ⟨"B", "B", none, 30, 20, none⟩]
    ⟨0, 0, 0, 0, CardContainer.loading⟩ (by simp)

/-- C4: for every `weight ≥ 0` and `maxCapacity > 0` the computed fill
percent lies in `[0, 100]`. -/
theorem fillPercent_clamped (weight maxCapacity : ℚ)
    (hw : 0 ≤ weight) (hc : 0 < maxCapacity) :
    0 ≤ computeFillPercent weight maxCapacity ∧
      computeFillPercent weight maxCapacity ≤ 100 := by
  simp only [computeFillPercent]
  split_ifs with hgt
  · exact ⟨by norm_num, le_refl 100⟩
  · exact ⟨by positivity, le_of_not_lt hgt⟩

/-- C4 witness: `weight = 6000`, `maxCapacity = 5000` is in bounds, and in
fact clamps to exactly 100. -/
theorem fillPercent_clamped_witness :
    (0 ≤ computeFillPercent 6000 5000 ∧ computeFillPercent 6000 5000 ≤ 100) ∧
      computeFillPercent 6000 5000 = 100 :=
  ⟨fillPercent_clamped 6000 5000 (by norm_num) (by norm_num), by
    norm_num [computeFillPercent]⟩

/-- C5: the gauge fill color is the warning color `#f44336` exactly when
`fillPercent < 10` and the normal color `#2196F3` exactly when
`fillPercent ≥ 10`; at the boundary `fillPercent = 10` the normal color is
chosen. -/
theorem gauge_color_threshold (fillPercent : ℚ) :
    (gaugeColor fillPercent = "#f44336" ↔ fillPercent < 10) ∧
    (gaugeColor fillPercent = "#2196F3" ↔ 10 ≤ fillPercent) ∧
    gaugeColor 10 = "#2196F3" := by
  refine ⟨⟨fun hcol => ?_, fun hlt => by simp [gaugeColor, hlt]⟩,
          ⟨fun hcol => ?_, fun hle => by simp [gaugeColor, not_lt.mpr hle]⟩,
          by norm_num [gaugeColor]⟩
  · by_contra hlt
    simp only [gaugeColor, if_neg hlt] at hcol
    exact absurd hcol (by decide)
  · by_contra hle
    push_neg at hle
    simp only [gaugeColor, if_pos hle] at hcol
    exact absurd hcol (by decide)

/-- C7: when the gauge fetch returns zero readings, `updateTankGraphic`
performs no DOM update: height, weight text, device label and fill color all
keep their prior values. -/
theorem gauge_empty_noop (deviceId : String) (maxCapacity : ℚ) (dom : GaugeDOM) :
    updateTankGraphic deviceId [] dom maxCapacity = dom := rfl

/-- C8: a row with unset or empty `warehouse` renders the literal label
`Multiple`; a row with a non-empty warehouse renders that value. -/
theorem warehouse_label_default (i : StockRow) :
    ((i.warehouse = none ∨ i.warehouse = some "") →
        (renderCard i).warehouseLabel = "Multiple") ∧
    (∀ w : String, i.warehouse = some w → w ≠ "" →
        (renderCard i).warehouseLabel = w) := by
  constructor
  · rintro (h | h) <;> simp [renderCard, h]
  · intro w hw hne
    simp [renderCard, hw, hne]

/-- C8 witness: a row with `warehouse = none` renders `Multiple`, and a row
with warehouse `Plant A` renders `Plant A`. -/
theorem warehouse_label_default_witness :
    (renderCard ⟨"A", "A", none, 1, 2, none⟩).warehouseLabel = "Multiple" ∧
    (renderCard ⟨"B", "B", some "Plant A", 1, 2, none⟩).warehouseLabel = "Plant A" :=
  ⟨(warehouse_label_default ⟨"A", "A", none, 1, 2, none⟩).1 (Or.inl rfl),
   (warehouse_label_default ⟨"B", "B", some "Plant A", 1, 2, none⟩).2 "Plant A" rfl
     (by decide)⟩

/-- C3: rows whose `custom_no_of_days` is absent, zero or negative are
excluded from the average-days computation and render a per-card days value
of `0`; `avg_days` is the sum of `actual_qty / custom_no_of_days` over the
included rows divided by their count, rounded to one decimal, when that
count is positive, and `0` otherwise. -/
theorem avg_days_exclusion (data : List StockRow) :
    (∀ i : StockRow,
        hasValidDays i = true ↔ ∃ d : ℚ, i.custom_no_of_days = some d ∧ 0 < d) ∧
    (∀ i ∈ data, hasValidDays i = false → (renderCard i).days = 0) ∧
    (aggregate data).valid_day_items = (data.filter hasValidDays).length ∧
    avg_days data =
      (if 0 < (data.filter hasValidDays).length then
        toFixed1 (((data.filter hasValidDays).map daysQuot).sum
          / ((data.filter hasValidDays).length : ℚ))
      else 0) := by
  refine ⟨fun i => ?_, fun i _ hvd => ?_, aggregate_valid_day_items data, ?_⟩
  · cases hd : i.custom_no_of_days <;> simp [hasValidDays, hd]
  · simp [renderCard, hvd]
  · simp only [avg_days]
    rw [aggregate_total_days, aggregate_valid_day_items]
    by_cases hn : (data.filter hasValidDays).length = 0
    · simp [hn]
    · simp [hn, Nat.pos_of_ne_zero hn]

/-- C3 witness: on the spec example `[{actualQty:100, customDaysOfSupply:10},
{actualQty:50, customDaysOfSupply:0}]` only the first row is counted and
`avg_days = 10`; the excluded row renders a per-card days value of `0`. -/
theorem avg_days_exclusion_witness :
    ((renderCard ⟨"B", "B", none, 50, 0, some 0⟩).days = 0 ∧
      (aggregate
        [⟨"A", "A", none, 100, 0, some 10⟩, ⟨"B", "B", none, 50, 0, some 0⟩]
        ).valid_day_items = 1) ∧
    avg_days
        [⟨"A", "A", none, 100, 0, some 10⟩, ⟨"B", "B", none, 50, 0, some 0⟩]
      = 10 := by
  have h := avg_days_exclusion
    [⟨"A", "A", none, 100, 0, some 10⟩, ⟨"B", "B", none, 50, 0, some 0⟩]
  have hA : hasValidDays ⟨"A", "A", none, 100, 0, some 10⟩ = true := by
    norm_num [hasValidDays]
  have hB : hasValidDays ⟨"B", "B", none, 50, 0, some 0⟩ = false := by
    norm_num [hasValidDays]
  have hfilter :
      List.filter hasValidDays
          [⟨"A", "A", none, 100, 0, some 10⟩, ⟨"B", "B", none, 50, 0, some 0⟩]
        = [⟨"A", "A", none, 100, 0, some 10⟩] := by
    simp [List.filter_cons, hA, hB]
  refine ⟨⟨h.2.1 ⟨"B", "B", none, 50, 0, some 0⟩ (by simp) hB, ?_⟩, ?_⟩
  · rw [h.2.2.1, hfilter]; rfl
  · rw [h.2.2.2, hfilter]
    have hq :
        ((List.map daysQuot [(⟨"A", "A", none, 100, 0, some 10⟩ : StockRow)]).sum
          / (([(⟨"A", "A", none, 100, 0, some 10⟩ : StockRow)] : List StockRow).length : ℚ))
        = 10 := by
      norm_num [daysQuot]
    rw [hq]
    have := toFixed1_of_floor 10 100 (by norm_num) (by norm_num)
    simp only [List.length_cons, List.length_nil, Nat.lt_irrefl, zero_add]
    norm_num [this]

/-- C6: `render_data` on the empty list replaces the card container with the
`No stock found.` empty state and leaves all four summary tiles at their
prior values. -/
theorem empty_render_keeps_tiles (dom : DashboardDOM) :
    render_data [] dom
        = { dom with container := CardContainer.emptyState "No stock found." } ∧
    (render_data [] dom).totalItems = dom.totalItems ∧
    (render_data [] dom).criticalItems = dom.criticalItems ∧
    (render_data [] dom).healthyItems = dom.healthyItems ∧
    (render_data [] dom).avgDays = dom.avgDays ∧
    (render_data [] dom).container = CardContainer.emptyState "No stock found." :=
  ⟨rfl, rfl, rfl, rfl, rfl, rfl⟩

/-- C9: a triggered refresh passes exactly the five current control values
as the named arguments of the remote call: the key set is always the same
five keys, and each key maps to the current value of its control, including
unset (`none`) values, which stay present rather than being omitted. -/
theorem refresh_args_roundtrip (page : FilterControls) :
    (refresh_call_args page).map Prod.fst
        = ["warehouse", "item_code", "item_group", "stock_status", "sort_order"] ∧
    (refresh_call_args page).lookup "warehouse" = some page.warehouse ∧
    (refresh_call_args page).lookup "item_code" = some page.item_code ∧
    (refresh_call_args page).lookup "item_group" = some page.item_group ∧
    (refresh_call_args page).lookup "stock_status" = some page.stock_status ∧
    (refresh_call_args page).lookup "sort_order" = some page.sort_order :=
  ⟨rfl, rfl, rfl, rfl, rfl, rfl⟩

/-- C10: the classification predicate used for the aggregate tiles and the
one used for each card agree: the badge and border class of every rendered
card match `isCritical`, and the number of cards badged Critical (resp. Healthy)
equals the criticalItems (resp. healthyItems) tile. -/
theorem badge_counts_agree (data : List StockRow) (dom : DashboardDOM)
    (h : data ≠ []) :
    (render_data data dom).container = CardContainer.cards (data.map renderCard) ∧
    (∀ i ∈ data,
        ((renderCard i).badgeText = "Critical" ↔ isCritical i = true) ∧
        ((renderCard i).borderClass = "critical" ↔ isCritical i = true)) ∧
    (data.map renderCard).countP (fun c => c.badgeText == "Critical")
        = (render_data data dom).criticalItems ∧
    (data.map renderCard).countP (fun c => c.badgeText == "Healthy")
        = (render_data data dom).healthyItems := by
  have hlen : ¬ data.length = 0 := by simpa using h
  have hbadge : ∀ i : StockRow,
      ((renderCard i).badgeText == "Critical") = isCritical i := by
    intro i
    by_cases hc : isCritical i <;> simp [renderCard, hc]
  have hbadgeH : ∀ i : StockRow,
      ((renderCard i).badgeText == "Healthy") = !isCritical i := by
    intro i
    by_cases hc : isCritical i <;> simp [renderCard, hc]
  refine ⟨by simp [render_data, hlen], fun i _ => ?_, ?_, ?_⟩
  · by_cases hc : isCritical i <;> simp [renderCard, hc]
  · rw [List.countP_map]
    simp only [render_data, hlen, if_false]
    rw [aggregate_critical]
    exact List.countP_congr fun i _ => by simp [Function.comp, hbadge i]
  · rw [List.countP_map]
    simp only [render_data, hlen, if_false]
    rw [aggregate_healthy]
    exact List.countP_congr fun i _ => by simp [Function.comp, hbadgeH i]

/-- C10 witness: on a concrete two-row list with one critical and one healthy
row, the Critical-badged card count equals the criticalItems tile and the
Healthy-badged card count equals the healthyItems tile. -/
theorem badge_counts_agree_witness :
    ([⟨"A", "A", none, 10, 20, none⟩, ⟨"B", "B", none, 30, 20, none⟩].map
        renderCard).countP (fun c => c.badgeText == "Critical")
      = (render_data
          [⟨"A", "A", none, 10, 20, none⟩, ⟨"B", "B", none, 30, 20, none⟩]
          ⟨0, 0, 0, 0, CardContainer.loading⟩).criticalItems ∧
    ([⟨"A", "A", none, 10, 20, none⟩, ⟨"B", "B", none, 30, 20, none⟩].map
        renderCard).countP (fun c => c.badgeText == "Healthy")
      = (render_data
          [⟨"A", "A", none, 10, 20, none⟩, ⟨"B", "B", none, 30, 20, none⟩]
          ⟨0, 0, 0, 0, CardContainer.loading⟩).healthyItems :=
  ⟨(badge_counts_agree
      [⟨"A", "A", none, 10, 20, none⟩, ⟨"B", "B", none, 30, 20, none⟩]
      ⟨0, 0, 0, 0, CardContainer.loading⟩ (by simp)).2.2.1,
   (badge_counts_agree
      [⟨"A", "A", none, 10, 20, none⟩, ⟨"B", "B", none, 30, 20, none⟩]
      ⟨0, 0, 0, 0, CardContainer.loading⟩ (by simp)).2.2.2⟩

end BDFMobile
